import Mathlib

/-!
Verification development for the peekaboo reconnaissance scanner.

The Lean definitions below are shallow embeddings of the Python source:
  * `core/utils.py` (`clean_target_url`)
  * `discovery/repository.py` (`SubdomainRepository.save`)
  * `discovery/service.py` (`DiscoveryService._process_subdomain` merge rule)
  * `crawling/katana.py` (`_parse_result` and its `core.models.KatanaResult`
    dataclass call, the sub-crawls, `crawl_all`, `_deduplicate_results`)
  * `crawling/service.py` (`_create_endpoint_record`/`_create_js_record` and
    their ORM constructor calls, `_process_results`, `_crawl_subdomain`,
    `crawl_specific_targets`)
  * `core/coordinator.py` (`_run_scan` phase ordering, the cancellation
    fallback in `start_scan`, `_generate_scan_report` and the `_count_*`
    queries)

Strings are modelled with Lean `String`/`List Char`; Python `str.lower` is
modelled on its ASCII fragment (domain names are ASCII), timestamps as `Nat`,
fallible I/O as explicit outcome parameters, and the SQLAlchemy session as an
explicit list-of-rows state threaded through each function.  Python calls
whose keyword arguments do not fit the callee — the dataclass call in
`_parse_result` and the `Endpoint(...)` call in `_create_endpoint_record` —
are modelled by an explicit keyword check against the callee's declared
fields/columns, mirroring the `TypeError` both raise at runtime.
-/

namespace Peekaboo

/-! ## `core/utils.py` : `clean_target_url` -/

/-- ASCII fragment of Python `str.lower` applied to one character. -/
def lowerChar (c : Char) : Char :=
  if 65 ≤ c.toNat ∧ c.toNat ≤ 90 then Char.ofNat (c.toNat + 32) else c

/-- `target.lower()` on the character list of the string. -/
def lowerStr (l : List Char) : List Char := l.map lowerChar

/-- One iteration of the prefix loop:
`if target.startswith(prefix): target = target[len(prefix):]`. -/
def stripPrefixOnce (p l : List Char) : List Char :=
  if p.isPrefixOf l then l.drop p.length else l

/-- The prefix list of `clean_target_url`, in source order. -/
def cleanPrefixes : List (List Char) :=
  ["https://".data, "http://".data, "www.".data]

/-- `target.strip('/')`: drop `'/'` from both ends. -/
def stripSlashes (l : List Char) : List Char :=
  ((l.dropWhile (· == '/')).reverse.dropWhile (· == '/')).reverse

/-- `clean_target_url` on character lists: lowercase, strip each of the three
prefixes once (in order), then strip slashes from both ends. -/
def cleanList (l : List Char) : List Char :=
  stripSlashes (cleanPrefixes.foldl (fun acc p => stripPrefixOnce p acc) (lowerStr l))

/-- `core/utils.py::clean_target_url` (same code is duplicated in
`main.py`). -/
def clean_target_url (s : String) : String := ⟨cleanList s.data⟩


/-! ## Data model (`core/models.py`)

A `Subdomain` row.  Timestamps are modelled as `Nat`, the `source` enum as a
`String`, JSON columns by their payloads. -/

structure SubdomainRec where
  sid : Nat
  domain : String
  source : String
  ipAddresses : List String
  isAlive : Bool
  httpStatus : Option Nat
  isTakeoverCandidate : Bool
  discoveryTime : Nat
  lastChecked : Option Nat
deriving Repr, DecidableEq

/-- The validation-result dict built by
`discovery/service.py::_process_subdomain` and handed to
`SubdomainRepository.save` (keys `domain`, `source`, `ip_addresses`,
`is_alive`, `http_status`, `is_takeover_candidate`, `discovery_time`,
`last_checked`). -/
structure ValidationRecord where
  domain : String
  source : String
  ipAddresses : List String
  isAlive : Bool
  httpStatus : Option Nat
  isTakeoverCandidate : Bool
  discoveryTime : Nat
  lastChecked : Option Nat
deriving Repr, DecidableEq

/-! ## `discovery/repository.py` : `SubdomainRepository.save` -/

/-- The update branch of `save`: every key of the result dict that is a model
attribute is copied onto the existing row (`setattr` loop), then
`existing.last_checked = None  # Reset to trigger crawl`.  The primary key is
untouched. -/
def applyUpdate (existing : SubdomainRec) (r : ValidationRecord) : SubdomainRec :=
  { existing with
    domain := r.domain
    source := r.source
    ipAddresses := r.ipAddresses
    isAlive := r.isAlive
    httpStatus := r.httpStatus
    isTakeoverCandidate := r.isTakeoverCandidate
    discoveryTime := r.discoveryTime
    lastChecked := none }

/-- The insert branch of `save`: a fresh row built from the dict, with
`last_checked = None`.  `newId` models the sqlite autoincrement key. -/
def newSubdomainRow (newId : Nat) (r : ValidationRecord) : SubdomainRec :=
  { sid := newId
    domain := r.domain
    source := r.source
    ipAddresses := r.ipAddresses
    isAlive := r.isAlive
    httpStatus := r.httpStatus
    isTakeoverCandidate := r.isTakeoverCandidate
    discoveryTime := r.discoveryTime
    lastChecked := none }

/-- `SubdomainRepository.save`: look up the first row whose `domain` equals
`result['domain']`; update it in place if found, otherwise append a new row. -/
def SubdomainRepository_save :
    List SubdomainRec → Nat → ValidationRecord → List SubdomainRec
  | [], newId, r => [newSubdomainRow newId r]
  | rec :: rest, newId, r =>
    if rec.domain = r.domain then applyUpdate rec r :: rest
    else rec :: SubdomainRepository_save rest newId r

/-- Number of rows holding a given domain name. -/
def countDomain (db : List SubdomainRec) (d : String) : Nat :=
  (db.filter (fun rec => rec.domain == d)).length

/-! ## `discovery/service.py` : `_process_subdomain` merge rule -/

/-- Outcomes of the three concurrent probes as delivered by
`asyncio.gather(..., return_exceptions=True)`: either a raised exception or
the probe's return value.  `resolve_domain` itself returns `[]` on failure and
`probe_http` returns `(None, None)`, but the gather can still surface an
exception (e.g. cancellation of the inner task). -/
structure ProbeResults where
  resolve : Except Unit (List String)
  http : Except Unit (Option Nat × Option String)
  takeover : Except Unit Bool

/-- The merge in `_process_subdomain`:
`ips = [] if isinstance(results[0], Exception) else results[0]`,
`status = results[1][0] if results[1] else None` (the pair is always truthy),
`takeover = False` on exception, `is_alive = bool(ips)`. -/
def _process_subdomain_record (domain source : String) (pr : ProbeResults)
    (now : Nat) : ValidationRecord :=
  let ips : List String := match pr.resolve with | .error _ => [] | .ok l => l
  let status : Option Nat := match pr.http with | .error _ => none | .ok t => t.1
  let takeover : Bool := match pr.takeover with | .error _ => false | .ok b => b
  { domain := domain
    source := source
    ipAddresses := ips
    isAlive := !ips.isEmpty
    httpStatus := status
    isTakeoverCandidate := takeover
    discoveryTime := now
    lastChecked := none }

/-! ## `crawling/katana.py` : `KatanaCrawler` -/

/-- The `core.models.KatanaResult` dataclass that `crawling/katana.py`
imports and instantiates.  `headers`/`response_body` only flow into
`additional_info` and are omitted as value fields (they do appear in the
keyword-name lists below, which drive the dataclass call check). -/
structure KatanaResult where
  timestamp : String
  url : String
  method : String
  tag : String
  attr : String   -- the dataclass field named `attribute` (a Lean keyword)
  source : String
  statusCode : Option Nat
  contentType : Option String
  responseSize : Option Nat
  parameters : List (String × String)
deriving Repr, DecidableEq

/-- Field names of the `core.models.KatanaResult` dataclass, in declaration
order. -/
def katanaResultFields : List String :=
  ["timestamp", "url", "method", "tag", "attribute", "source", "status_code",
    "content_type", "response_size", "parameters", "headers", "response_body"]

/-- The dataclass fields without a default value — every one of them must be
supplied at each call, or Python raises `TypeError`.  Only `response_body`
has a default. -/
def katanaResultRequiredFields : List String :=
  ["timestamp", "url", "method", "tag", "attribute", "source", "status_code",
    "content_type", "response_size", "parameters", "headers"]

/-- The keyword arguments `_parse_result` actually passes to
`KatanaResult(...)`. -/
def parseResultKwargs : List String :=
  ["url", "method", "status_code", "content_type", "response_size",
    "parameters", "headers", "response_body", "source"]

/-- A Python call with keyword arguments succeeds iff every keyword names a
field and every required field is supplied; otherwise it raises `TypeError`. -/
def pyDataclassCallOk (fields required kwargs : List String) : Bool :=
  kwargs.all (fields.contains ·) && required.all (kwargs.contains ·)

/-- One JSON line of katana output as read by `_parse_result` via
`result.get(...)` (fields that only feed `parameters`/`additional_info` are
omitted). -/
structure RawResult where
  url : String
  method : String
  statusCode : Option Nat
  contentType : Option String
  responseSize : Option Nat
deriving Repr, DecidableEq

/-- `_parse_result`: build a `core.models.KatanaResult` from one raw record.
The call passes `url, method, status_code, content_type, response_size,
parameters, headers, response_body, source` — but never the required
`timestamp`, `tag` and `attribute` fields, so the guard is false and the call
raises `TypeError` on every invocation (the `ok` branch is unreachable; its
filler values for the three missing fields never materialize). -/
def _parse_result (raw : RawResult) (source : String) : Except Unit KatanaResult :=
  if pyDataclassCallOk katanaResultFields katanaResultRequiredFields parseResultKwargs then
    Except.ok
      { timestamp := ""
        url := raw.url
        method := raw.method
        tag := ""
        attr := ""
        source := source
        statusCode := raw.statusCode
        contentType := raw.contentType
        responseSize := raw.responseSize
        parameters := [] }
  else Except.error ()

/-- The list comprehension `[self._parse_result(r, tag) for r in results]`:
it raises as soon as one element raises, so the whole sub-crawl coroutine
raises on any nonempty output and returns `[]` on empty output. -/
def parse_all (source : String) : List RawResult → Except Unit (List KatanaResult)
  | [] => Except.ok []
  | raw :: rest =>
    match _parse_result raw source with
    | .error e => .error e
    | .ok k =>
      match parse_all source rest with
      | .error e => .error e
      | .ok ks => .ok (k :: ks)

/-- `crawl_endpoints`: execute katana and parse each output line with the
`"crawler"` tag. -/
def KatanaCrawler_crawl_endpoints (lines : List RawResult) :
    Except Unit (List KatanaResult) :=
  parse_all "crawler" lines

/-- `crawl_js`: parse each output line with the `"javascript_parser"` tag. -/
def KatanaCrawler_crawl_js (lines : List RawResult) :
    Except Unit (List KatanaResult) :=
  parse_all "javascript_parser" lines

/-- `crawl_forms`: parse each output line with the `"form_submission"` tag. -/
def KatanaCrawler_crawl_forms (lines : List RawResult) :
    Except Unit (List KatanaResult) :=
  parse_all "form_submission" lines

/-- `_deduplicate_results`: walk the list keeping the first occurrence of each
`(url, method)` key. -/
def dedupAux : List (String × String) → List KatanaResult → List KatanaResult
  | _, [] => []
  | seen, r :: rest =>
    if (r.url, r.method) ∈ seen then dedupAux seen rest
    else r :: dedupAux ((r.url, r.method) :: seen) rest

def _deduplicate_results (results : List KatanaResult) : List KatanaResult :=
  dedupAux [] results

/-- One sub-crawl of `crawl_all` as observed through
`asyncio.gather(..., return_exceptions=True)`: a raised exception contributes
nothing (`continue`), otherwise its results are appended. -/
def collectTask (t : Except Unit (List KatanaResult)) : List KatanaResult :=
  match t with
  | .error _ => []
  | .ok l => l

/-- `KatanaCrawler.crawl_all`: run the endpoint, javascript and form crawls
on their raw outputs, concatenate the sub-crawls that did not raise, in that
order, and deduplicate on `(url, method)`.  `aborted` models the
overall-timeout / unexpected-error paths, which return `[]`. -/
def KatanaCrawler_crawl_all (aborted : Bool)
    (endpointLines jsLines formLines : List RawResult) : List KatanaResult :=
  if aborted then []
  else _deduplicate_results
    (collectTask (KatanaCrawler_crawl_endpoints endpointLines) ++
      collectTask (KatanaCrawler_crawl_js jsLines) ++
      collectTask (KatanaCrawler_crawl_forms formLines))

/-! ## `crawling/service.py` : `CrawlingService` -/

/-- `result.url.endswith('.js')`. -/
def endsWithJs (u : String) : Bool := ".js".data.isSuffixOf u.data

/-- The values `_create_endpoint_record` tries to store in an `Endpoint`
row (the call's keyword-argument values). -/
structure EndpointRec where
  subdomainId : Nat
  path : String
  method : String
  source : String
  discoveryTime : Nat
  contentType : Option String
  statusCode : Option Nat
  responseSize : Option Nat
  parameters : List (String × String)
  isAuthenticated : Bool
deriving Repr, DecidableEq

/-- A `JavaScript` row as built by `_create_js_record`. -/
structure JsRec where
  subdomainId : Nat
  url : String
  discoveryTime : Nat
deriving Repr, DecidableEq

/-- Column names of `core.models.Endpoint` (the ORM model's `Column`
attributes). -/
def endpointColumns : List String :=
  ["id", "subdomain_id", "full_url", "domain", "path_segments", "endpoint_type",
    "resource_id", "source_page", "discovery_tag", "discovery_attribute",
    "discovery_time", "method", "status_code", "content_type", "response_size",
    "parameters", "is_authenticated", "additional_info"]

/-- The keyword arguments `_create_endpoint_record` passes to
`Endpoint(...)`. -/
def createEndpointKwargs : List String :=
  ["subdomain_id", "path", "method", "source", "discovery_time", "content_type",
    "status_code", "response_size", "parameters", "is_authenticated",
    "additional_info"]

/-- Column names of `core.models.JavaScript`. -/
def javascriptColumns : List String :=
  ["id", "subdomain_id", "url", "file_hash", "endpoints_referenced", "variables",
    "discovery_time", "last_modified"]

/-- The keyword arguments `_create_js_record` passes to `JavaScript(...)`. -/
def createJsKwargs : List String :=
  ["subdomain_id", "url", "file_hash", "endpoints_referenced", "variables",
    "discovery_time", "last_modified"]

/-- SQLAlchemy's declarative constructor raises `TypeError` iff some keyword
argument is not a mapped column. -/
def ormCallOk (columns kwargs : List String) : Bool :=
  kwargs.all (columns.contains ·)

/-- `_create_endpoint_record`: `Endpoint(subdomain_id=..., path=result.url,
..., source=EndpointSource(result.source), ...)`.  `path` and `source` are
not columns of `core.models.Endpoint` (it has `full_url` and `source_page`),
so the guard is false and the call raises `TypeError` on every invocation
(the `ok` branch, the row the call tries to build, is unreachable). -/
def _create_endpoint_record (subdomainId : Nat) (now : Nat) (r : KatanaResult) :
    Except Unit EndpointRec :=
  if ormCallOk endpointColumns createEndpointKwargs then
    Except.ok
      { subdomainId := subdomainId
        path := r.url
        method := r.method
        source := r.source
        discoveryTime := now
        contentType := r.contentType
        statusCode := r.statusCode
        responseSize := r.responseSize
        parameters := r.parameters
        isAuthenticated := false }
  else Except.error ()

/-- `_create_js_record`: every keyword it passes is a real `JavaScript`
column, so this call succeeds. -/
def _create_js_record (subdomainId : Nat) (now : Nat) (r : KatanaResult) :
    Except Unit JsRec :=
  if ormCallOk javascriptColumns createJsKwargs then
    Except.ok { subdomainId := subdomainId, url := r.url, discoveryTime := now }
  else Except.error ()

/-- The store as seen by the crawling service. -/
structure CrawlDB where
  subdomains : List SubdomainRec
  endpoints : List EndpointRec
  jsFiles : List JsRec
deriving Repr, DecidableEq

/-- The record-building loop of `_process_results`: each result is turned
into a `JavaScript` record (urls ending in `.js`) or an `Endpoint` record,
in input order; the first record constructor that raises aborts the loop. -/
def buildRecords (sid now : Nat) :
    List KatanaResult → Except Unit (List EndpointRec × List JsRec)
  | [] => Except.ok ([], [])
  | r :: rest =>
    if endsWithJs r.url then
      match _create_js_record sid now r with
      | .error e => .error e
      | .ok j =>
        match buildRecords sid now rest with
        | .error e => .error e
        | .ok (eps, js) => .ok (eps, j :: js)
    else
      match _create_endpoint_record sid now r with
      | .error e => .error e
      | .ok ep =>
        match buildRecords sid now rest with
        | .error e => .error e
        | .ok (eps, js) => .ok (ep :: eps, js)

/-- `_process_results`: build the endpoint/js records, bulk-save both, then
commit once.  A raising record constructor or a failing commit rolls back
(store unchanged) and re-raises, modelled as `none`. -/
def _process_results (db : CrawlDB) (sid : Nat) (results : List KatanaResult)
    (now : Nat) (commitOk : Bool) : Option CrawlDB :=
  match buildRecords sid now results with
  | .error _ => none
  | .ok (eps, js) =>
    if commitOk then
      some { db with
        endpoints := db.endpoints ++ eps
        jsFiles := db.jsFiles ++ js }
    else none

/-- The `subdomain.last_checked = datetime.utcnow(); session.commit()` step. -/
def setLastChecked (db : CrawlDB) (sid now : Nat) : CrawlDB :=
  { db with subdomains := db.subdomains.map fun s =>
      if s.sid = sid then { s with lastChecked := some now } else s }

/-- Fate of `katana.crawl_all` for one target: per-target `wait_for` timeout,
a raised exception, or a result list. -/
inductive CrawlFate
  | timeout
  | raised
  | ok (results : List KatanaResult)
deriving Repr, DecidableEq

/-- Fate of the `_process_results` call: its own `wait_for` timeout, or a run
whose single commit succeeds or fails. -/
inductive ProcessFate
  | timeout
  | run (commitOk : Bool)
deriving Repr, DecidableEq

/-- How `_crawl_subdomain` ends, mirroring its log/return paths. -/
inductive TargetOutcome
  | crawlTimedOut   -- "Crawl timed out for ..." and return
  | procTimedOut    -- "Result processing timed out for ..." and return
  | errorCaught     -- "Error crawling ..." in the outer `except Exception`
  | done            -- normal completion (watermark commit may still fail softly)
deriving Repr, DecidableEq

/-- `_crawl_subdomain`: crawl, process+commit the records, then — only after
a successful record commit — set `last_checked` in a second commit whose
failure is logged but swallowed. -/
def _crawl_subdomain (db : CrawlDB) (sub : SubdomainRec) (fate : CrawlFate)
    (proc : ProcessFate) (wmCommitOk : Bool) (now : Nat) :
    CrawlDB × TargetOutcome :=
  match fate with
  | .timeout => (db, .crawlTimedOut)
  | .raised => (db, .errorCaught)
  | .ok results =>
    match proc with
    | .timeout => (db, .procTimedOut)
    | .run commitOk =>
      match _process_results db sub.sid results now commitOk with
      | none => (db, .errorCaught)
      | some db1 =>
        ((if wmCommitOk then setLastChecked db1 sub.sid now else db1), .done)

/-- One target's scheduled work inside `crawl_specific_targets`, with the
injected fates of its fallible steps. -/
structure TargetPlan where
  sub : SubdomainRec
  fate : CrawlFate
  proc : ProcessFate
  wmCommitOk : Bool
deriving Repr, DecidableEq

/-- `crawl_specific_targets`: one `_crawl_subdomain` task per target,
gathered with `return_exceptions=True`.  Each task touches only its own
target's rows, so the concurrent batch is modelled by its linearization in
scheduling order. -/
def crawl_specific_targets (db : CrawlDB) (now : Nat) :
    List TargetPlan → CrawlDB × List TargetOutcome
  | [] => (db, [])
  | p :: rest =>
    let step := _crawl_subdomain db p.sub p.fate p.proc p.wmCommitOk now
    let next := crawl_specific_targets step.1 now rest
    (next.1, step.2 :: next.2)

/-! ## `core/coordinator.py` : `ScanCoordinator` -/

/-- The scope filter used by every coordinator query:
`(Subdomain.domain == self.target) | (Subdomain.domain.like(f'%.{self.target}'))`. -/
def inScope (target domain : String) : Bool :=
  domain == target || ("." ++ target).data.isSuffixOf domain.data

/-- The `_run_scan` crawl-input query: rows with `is_alive == True`,
`last_checked == None`, restricted to the target's scope. -/
def liveUncrawledQuery (target : String) (db : List SubdomainRec) :
    List SubdomainRec :=
  db.filter fun s => s.isAlive && s.lastChecked == none && inScope target s.domain

/-- `crawl_specific_targets`' own fetch: re-query the rows whose id is in the
id list it was handed (no liveness or crawled filter of its own). -/
def crawl_specific_targets_fetch (db : List SubdomainRec) (ids : List Nat) :
    List SubdomainRec :=
  db.filter fun s => ids.contains s.sid

/-- The crawl input assembled by `start_scan`'s `CancelledError` handler:
`session.query(Subdomain).all()` (every persisted row, unfiltered), whose ids
are handed to `crawl_specific_targets`. -/
def start_scan_cancellation_crawl_input (db : List SubdomainRec) :
    List SubdomainRec :=
  crawl_specific_targets_fetch db ((db).map (fun s => s.sid))

/-- Observable phase-entry events of `_run_scan`, in execution order. -/
inductive PhaseEvent
  | discovery       -- "Starting Phase 1: Subdomain Discovery"
  | vulnerability   -- "Starting Phase 3: Vulnerability Scanning" block runs
  | crawling        -- `crawler.crawl_specific_targets(...)` is awaited
  | report          -- `_generate_scan_report` is called
deriving Repr, DecidableEq

/-- Fate of the vulnerability-scanning block in `_run_scan`. -/
inductive VulnFate
  | ok
  | timeout   -- returns an error report immediately
  | raised    -- returns an error report immediately
deriving Repr, DecidableEq

/-- Fate of the crawling block in `_run_scan`. -/
inductive CrawlPhaseFate
  | ok
  | timeout     -- returns an error report
  | raised      -- returns an error report
  | cancelled   -- re-raises; the report is generated by `start_scan`
deriving Repr, DecidableEq

/-- The sequence of phase events produced by one `_run_scan` call
(`core/coordinator.py` lines 100-243): Phase 1 discovery, the eligible-target
query, then — when the eligible set is nonempty — the vulnerability-scanning
block, and only after it the crawl invocation. -/
def _run_scan_trace (eligibleNonempty : Bool) (vuln : VulnFate)
    (crawl : CrawlPhaseFate) : List PhaseEvent :=
  [.discovery] ++
    (if eligibleNonempty then
      [.vulnerability] ++
        (match vuln with
          | .timeout => [.report]
          | .raised => [.report]
          | .ok =>
            [.crawling] ++
              (match crawl with
                | .cancelled => []
                | _ => [.report]))
    else [.report])

/-! ### `_generate_scan_report` and the `_count_*` queries -/

/-- An `Endpoint` row as seen by the report queries. -/
structure EndpointRow where
  eid : Nat
  subdomainId : Nat
deriving Repr, DecidableEq

structure JsRow where
  subdomainId : Nat
deriving Repr, DecidableEq

structure VulnRow where
  endpointId : Nat
deriving Repr, DecidableEq

/-- The durable store as queried by `_generate_scan_report`. -/
structure ReportDB where
  subdomains : List SubdomainRec
  endpoints : List EndpointRow
  jsFiles : List JsRow
  vulns : List VulnRow
deriving Repr, DecidableEq

/-- `_count_endpoints`: endpoints joined to an in-scope subdomain. -/
def _count_endpoints (target : String) (db : ReportDB) : Nat :=
  (db.endpoints.filter fun e =>
    db.subdomains.any fun s => s.sid == e.subdomainId && inScope target s.domain).length

/-- `_count_js_files`: javascript rows joined to an in-scope subdomain. -/
def _count_js_files (target : String) (db : ReportDB) : Nat :=
  (db.jsFiles.filter fun j =>
    db.subdomains.any fun s => s.sid == j.subdomainId && inScope target s.domain).length

/-- `_count_vulnerabilities`: vulnerabilities joined through their endpoint to
an in-scope subdomain. -/
def _count_vulnerabilities (target : String) (db : ReportDB) : Nat :=
  (db.vulns.filter fun v =>
    db.endpoints.any fun e =>
      e.eid == v.endpointId &&
        db.subdomains.any fun s => s.sid == e.subdomainId && inScope target s.domain).length

/-- The coordinator's in-memory progress counters. -/
structure ScanState where
  target : String
  startTime : Nat
  completionTime : Option Nat
  totalSubdomains : Nat
  crawledSubdomains : Nat
deriving Repr, DecidableEq

/-- The report dict assembled by `_generate_scan_report`. -/
structure ScanReport where
  target : String
  durationSeconds : Nat
  totalSubdomains : Nat
  status : String
  liveSubdomains : Nat
  endpointsDiscovered : Nat
  jsFilesFound : Nat
  vulnerabilitiesFound : Nat
  error : Option String
deriving Repr, DecidableEq

/-- `_generate_scan_report`: on an error run the three `_count_*` queries are
skipped (`... if not error else 0`), and `live_subdomains` is always the
in-memory `self.crawled_subdomains` counter. -/
def _generate_scan_report (st : ScanState) (db : ReportDB) (now : Nat)
    (error : Option String) : ScanReport :=
  let completion := st.completionTime.getD now
  { target := st.target
    durationSeconds := completion - st.startTime
    totalSubdomains := st.totalSubdomains
    status := if error.isSome then "error" else "completed"
    liveSubdomains := st.crawledSubdomains
    endpointsDiscovered := if error.isSome then 0 else _count_endpoints st.target db
    jsFilesFound := if error.isSome then 0 else _count_js_files st.target db
    vulnerabilitiesFound := if error.isSome then 0 else _count_vulnerabilities st.target db
    error := error }

/-! ## Derived definitions used by the theorems -/

/-- Number of crawl results carrying a given `(url, method)` key. -/
def countKey (l : List KatanaResult) (u m : String) : Nat :=
  l.countP fun r => r.url == u && r.method == m

/-! ## Claim C10 — idempotence of `clean_target_url` -/

lemma toNat_ofNat_of_lt (n : Nat) (h : n < 55296) : (Char.ofNat n).toNat = n := by
  unfold Char.ofNat
  rw [dif_pos (Or.inl h)]
  simp [Char.ofNatAux, Char.toNat, UInt32.toNat]

lemma lowerChar_idem (c : Char) : lowerChar (lowerChar c) = lowerChar c := by
  by_cases h : 65 ≤ c.toNat ∧ c.toNat ≤ 90
  · have hval : (Char.ofNat (c.toNat + 32)).toNat = c.toNat + 32 :=
      toNat_ofNat_of_lt _ (by omega)
    have hny : ¬(65 ≤ (Char.ofNat (c.toNat + 32)).toNat ∧
        (Char.ofNat (c.toNat + 32)).toNat ≤ 90) := by
      rw [hval]; omega
    simp only [lowerChar]
    rw [if_pos h, if_neg hny]
  · simp only [lowerChar]
    rw [if_neg h, if_neg h]

lemma dropWhile_dropWhile_self {α : Type} (p : α → Bool) (l : List α) :
    (l.dropWhile p).dropWhile p = l.dropWhile p := by
  induction l with
  | nil => rfl
  | cons c t ih =>
    by_cases h : p c
    · simpa [List.dropWhile, h] using ih
    · simp [List.dropWhile, h]

lemma head_false_of_dropWhile_eq {α : Type} (p : α → Bool) (c : α) (w : List α)
    (h : List.dropWhile p (c :: w) = c :: w) : p c = false := by
  by_cases hc : p c
  · exfalso
    rw [List.dropWhile_cons_of_pos hc] at h
    have hle : (List.dropWhile p w).length ≤ w.length :=
      (List.dropWhile_sublist (l := w) (p := p)).length_le
    have hlen := congrArg List.length h
    simp at hlen
    omega
  · simpa using hc

lemma stripSlashes_inner {α : Type} (p : α → Bool) (a : List α)
    (ha : List.dropWhile p a = a) :
    List.dropWhile p (List.dropWhile p a.reverse).reverse
      = (List.dropWhile p a.reverse).reverse := by
  cases hbr : (List.dropWhile p a.reverse).reverse with
  | nil => rfl
  | cons c t =>
    obtain ⟨u, hu⟩ : List.dropWhile p a.reverse <:+ a.reverse := List.dropWhile_suffix p
    have hpref : (List.dropWhile p a.reverse).reverse ++ u.reverse = a := by
      have h2 := congrArg List.reverse hu
      simpa using h2
    rw [hbr] at hpref
    have hpc : p c = false := by
      apply head_false_of_dropWhile_eq p c (t ++ u.reverse)
      have ha2 : a = c :: (t ++ u.reverse) := by
        rw [← hpref]; rfl
      rw [← ha2]
      exact ha
    exact List.dropWhile_cons_of_neg (by simp [hpc])

lemma stripSlashes_idem (l : List Char) : stripSlashes (stripSlashes l) = stripSlashes l := by
  unfold stripSlashes
  rw [stripSlashes_inner _ _ (dropWhile_dropWhile_self _ l)]
  rw [List.reverse_reverse, dropWhile_dropWhile_self]

lemma mem_lowerStr_fixed {c : Char} {l : List Char} (h : c ∈ lowerStr l) :
    lowerChar c = c := by
  unfold lowerStr at h
  obtain ⟨a, _, rfl⟩ := List.mem_map.mp h
  exact lowerChar_idem a

lemma mem_stripPrefixOnce {c : Char} {p l : List Char} (h : c ∈ stripPrefixOnce p l) :
    c ∈ l := by
  unfold stripPrefixOnce at h
  split at h
  · exact (List.drop_sublist _ _).subset h
  · exact h

lemma mem_stripSlashes {c : Char} {l : List Char} (h : c ∈ stripSlashes l) : c ∈ l := by
  unfold stripSlashes at h
  rw [List.mem_reverse] at h
  have h2 := (List.dropWhile_sublist _).subset h
  rw [List.mem_reverse] at h2
  exact (List.dropWhile_sublist _).subset h2

lemma mem_cleanList {c : Char} {l : List Char} (h : c ∈ cleanList l) : c ∈ lowerStr l := by
  unfold cleanList cleanPrefixes at h
  simp only [List.foldl_cons, List.foldl_nil] at h
  exact mem_stripPrefixOnce (mem_stripPrefixOnce (mem_stripPrefixOnce (mem_stripSlashes h)))

lemma lowerStr_cleanList (l : List Char) : lowerStr (cleanList l) = cleanList l := by
  have h : List.map lowerChar (cleanList l) = List.map id (cleanList l) :=
    List.map_congr_left (fun c hc => mem_lowerStr_fixed (mem_cleanList hc))
  simpa [lowerStr] using h

lemma stripSlashes_cleanList (l : List Char) :
    stripSlashes (cleanList l) = cleanList l := by
  unfold cleanList
  exact stripSlashes_idem _

/-- `cleanList` with the prefix fold unrolled. -/
lemma cleanList_eq (m : List Char) :
    cleanList m = stripSlashes (stripPrefixOnce "www.".data
      (stripPrefixOnce "http://".data
        (stripPrefixOnce "https://".data (lowerStr m)))) := rfl

/-- The claim as written fails: `clean_target_url` is not idempotent, because
the `www.` prefix is stripped at most once per call. -/
theorem c10_counterexample :
    clean_target_url (clean_target_url "www.www.example.com")
      ≠ clean_target_url "www.www.example.com" := by decide

/-- C10 (amended): `clean_target_url` is idempotent on every input whose
cleaned form does not itself begin with one of the prefixes `https://`,
`http://`, `www.`; a second application can otherwise strip one more prefix. -/
theorem c10_clean_target_url_conditionally_idempotent (s : String)
    (h1 : ¬ "https://".data.isPrefixOf (clean_target_url s).data)
    (h2 : ¬ "http://".data.isPrefixOf (clean_target_url s).data)
    (h3 : ¬ "www.".data.isPrefixOf (clean_target_url s).data) :
    clean_target_url (clean_target_url s) = clean_target_url s := by
  have h1' : ¬("https://".data.isPrefixOf (cleanList s.data) = true) := h1
  have h2' : ¬("http://".data.isPrefixOf (cleanList s.data) = true) := h2
  have h3' : ¬("www.".data.isPrefixOf (cleanList s.data) = true) := h3
  have key : cleanList (cleanList s.data) = cleanList s.data := by
    rw [cleanList_eq (cleanList s.data), lowerStr_cleanList]
    simp only [stripPrefixOnce]
    rw [if_neg h1', if_neg h2', if_neg h3']
    exact stripSlashes_cleanList s.data
  show String.mk (cleanList (cleanList s.data)) = String.mk (cleanList s.data)
  exact congrArg String.mk key

/-- Witness: the conditional idempotence theorem applied at a concrete input. -/
theorem c10_clean_target_url_conditionally_idempotent_witness :
    clean_target_url (clean_target_url "https://Example.COM/") =
      clean_target_url "https://Example.COM/" :=
  c10_clean_target_url_conditionally_idempotent "https://Example.COM/"
    (by decide) (by decide) (by decide)

/-! ## Claim C1 — phase ordering of `_run_scan` -/

/-- Claim C1 evidence: with a nonempty eligible set and no failures,
`_run_scan` enters the vulnerability-scanning block strictly before it
invokes the crawl — the code's execution order is Discovery, Vulnerability,
Crawl, contradicting the specified Discovery, Crawl, Vulnerability order. -/
theorem c1_vulnerability_scan_runs_before_crawl :
    _run_scan_trace true VulnFate.ok CrawlPhaseFate.ok =
        [PhaseEvent.discovery, PhaseEvent.vulnerability,
          PhaseEvent.crawling, PhaseEvent.report] ∧
      (_run_scan_trace true VulnFate.ok CrawlPhaseFate.ok).indexOf
          PhaseEvent.vulnerability <
        (_run_scan_trace true VulnFate.ok CrawlPhaseFate.ok).indexOf
          PhaseEvent.crawling := by
  constructor
  · rfl
  · decide

/-! ## Claim C2 — crawl input on the cancellation path -/

/-- Claim C2 evidence: after a scan-level cancellation, `start_scan` queries
`session.query(Subdomain).all()` and hands every persisted row to the
crawler.  A dead, already-crawled row is therefore passed to the crawl
engine, although the `_run_scan` filter (liveness, never crawled, in scope)
would exclude it. -/
theorem c2_cancellation_crawl_input_unfiltered :
    (⟨2, "api.example.com", "PASSIVE", [], false, none, false, 1, some 7⟩ : SubdomainRec)
        ∈ start_scan_cancellation_crawl_input
            [⟨2, "api.example.com", "PASSIVE", [], false, none, false, 1, some 7⟩] ∧
      (⟨2, "api.example.com", "PASSIVE", [], false, none, false, 1, some 7⟩ :
          SubdomainRec).isAlive = false ∧
      (⟨2, "api.example.com", "PASSIVE", [], false, none, false, 1, some 7⟩ :
          SubdomainRec).lastChecked ≠ none ∧
      liveUncrawledQuery "example.com"
          [⟨2, "api.example.com", "PASSIVE", [], false, none, false, 1, some 7⟩] = [] := by
  refine ⟨?_, rfl, by decide, ?_⟩
  · decide
  · decide

/-! ## Claim C3 — watermark untouched when record persistence fails -/

lemma process_results_commit_fail (db : CrawlDB) (sid : Nat)
    (results : List KatanaResult) (now : Nat) :
    _process_results db sid results now false = none := by
  cases hbr : buildRecords sid now results with
  | error e => simp [_process_results, hbr]
  | ok pair =>
    obtain ⟨eps, js⟩ := pair
    simp [_process_results, hbr]

/-- Claim C3: if persisting a target's crawl records fails (the
`_process_results` timeout path or a raising `_process_results` run — a
record constructor raising or the commit failing), `_crawl_subdomain`
leaves the store completely unchanged — in particular the target's
`last_checked` watermark is not advanced, so a never-crawled target remains
null and stays eligible. -/
theorem c3_watermark_survives_persist_failure (db : CrawlDB) (sub : SubdomainRec)
    (results : List KatanaResult) (proc : ProcessFate) (wmCommitOk : Bool) (now : Nat)
    (h : proc = ProcessFate.timeout ∨ proc = ProcessFate.run false) :
    (_crawl_subdomain db sub (CrawlFate.ok results) proc wmCommitOk now).1 = db := by
  rcases h with h | h <;> subst h
  · rfl
  · have hpr : _process_results db sub.sid results now false = none :=
      process_results_commit_fail db sub.sid results now
    cases wmCommitOk <;> simp [_crawl_subdomain, hpr]

/-- Witness for C3 at a concrete store, target and failing commit. -/
theorem c3_watermark_survives_persist_failure_witness :
    (_crawl_subdomain
        ⟨[⟨1, "example.com", "BASE", ["1.2.3.4"], true, some 200, false, 0, none⟩], [], []⟩
        ⟨1, "example.com", "BASE", ["1.2.3.4"], true, some 200, false, 0, none⟩
        (CrawlFate.ok [⟨"", "https://example.com/a", "GET", "a", "href", "crawler",
          some 200, none, none, []⟩])
        (ProcessFate.run false) true 42).1 =
      ⟨[⟨1, "example.com", "BASE", ["1.2.3.4"], true, some 200, false, 0, none⟩], [], []⟩ :=
  c3_watermark_survives_persist_failure _ _ _ _ _ _ (Or.inr rfl)

/-! ## Claim C4 — writers of `last_checked` -/

/-- Claim C4 counterexample: the discovery upsert of an already-existing row
does change `last_checked` — `SubdomainRepository.save` resets it from a set
timestamp to null (`# Reset to trigger crawl`). -/
theorem c4_counterexample :
    (⟨1, "www.example.com", "PASSIVE", ["1.2.3.4"], true, some 200, false, 0, some 5⟩ :
        SubdomainRec).lastChecked = some 5 ∧
      (SubdomainRepository_save
          [⟨1, "www.example.com", "PASSIVE", ["1.2.3.4"], true, some 200, false, 0, some 5⟩]
          2
          ⟨"www.example.com", "PASSIVE", ["1.2.3.4"], true, some 200, false, 9, none⟩).map
          (fun s => s.lastChecked) = [none] := by
  constructor
  · rfl
  · decide

/-- Claim C4 (amended): `last_checked` has exactly two writers — the
discovery upsert, which resets it to null on every save (insert and update
branches alike), and the crawl phase, which on success sets it to the crawl
time; every row after either operation is either untouched or carries one of
those two written values. -/
theorem c4_lastChecked_writers (db : List SubdomainRec) (newId : Nat)
    (r : ValidationRecord) (cdb : CrawlDB) (sub : SubdomainRec) (fate : CrawlFate)
    (proc : ProcessFate) (wmCommitOk : Bool) (now : Nat) :
    (∀ rec ∈ SubdomainRepository_save db newId r,
        rec.lastChecked = none ∨ rec ∈ db) ∧
      (∀ s ∈ ((_crawl_subdomain cdb sub fate proc wmCommitOk now).1).subdomains,
        s ∈ cdb.subdomains ∨ s.lastChecked = some now) := by
  constructor
  · induction db with
    | nil =>
      intro rec hrec
      simp [SubdomainRepository_save] at hrec
      subst hrec
      exact Or.inl rfl
    | cons rec0 rest ih =>
      intro rec hrec
      by_cases hdom : rec0.domain = r.domain
      · rw [SubdomainRepository_save, if_pos hdom] at hrec
        rcases List.mem_cons.mp hrec with h | h
        · subst h
          exact Or.inl rfl
        · exact Or.inr (List.mem_cons_of_mem _ h)
      · rw [SubdomainRepository_save, if_neg hdom] at hrec
        rcases List.mem_cons.mp hrec with h | h
        · subst h
          exact Or.inr (List.mem_cons_self _ _)
        · rcases ih rec h with h2 | h2
          · exact Or.inl h2
          · exact Or.inr (List.mem_cons_of_mem _ h2)
  · intro s hs
    cases fate with
    | timeout => exact Or.inl hs
    | raised => exact Or.inl hs
    | ok results =>
      cases proc with
      | timeout => exact Or.inl hs
      | run commitOk =>
        cases commitOk with
        | false =>
          have hpr : _process_results cdb sub.sid results now false = none :=
            process_results_commit_fail cdb sub.sid results now
          simp only [_crawl_subdomain, hpr] at hs
          exact Or.inl hs
        | true =>
          cases hbr : buildRecords sub.sid now results with
          | error e =>
            have hpr : _process_results cdb sub.sid results now true = none := by
              simp [_process_results, hbr]
            simp only [_crawl_subdomain, hpr] at hs
            exact Or.inl hs
          | ok pair =>
            obtain ⟨eps, js⟩ := pair
            have hpr : _process_results cdb sub.sid results now true =
                some { cdb with
                  endpoints := cdb.endpoints ++ eps
                  jsFiles := cdb.jsFiles ++ js } := by
              simp [_process_results, hbr]
            cases wmCommitOk with
            | false =>
              simp only [_crawl_subdomain, hpr] at hs
              exact Or.inl hs
            | true =>
              simp only [_crawl_subdomain, hpr, setLastChecked] at hs
              rcases List.mem_map.mp hs with ⟨t, ht, hts⟩
              by_cases hsid : t.sid = sub.sid
              · rw [if_pos hsid] at hts
                exact Or.inr (hts ▸ rfl)
              · rw [if_neg hsid] at hts
                exact Or.inl (hts ▸ ht)

/-- Witness for C4 (amended): the save of a fresh domain into an empty store
yields a row with a null watermark. -/
theorem c4_lastChecked_writers_witness :
    (newSubdomainRow 1
          ⟨"example.com", "BASE", ["1.2.3.4"], true, some 200, false, 3, none⟩).lastChecked =
        none ∨
      newSubdomainRow 1
          ⟨"example.com", "BASE", ["1.2.3.4"], true, some 200, false, 3, none⟩ ∈
        ([] : List SubdomainRec) :=
  (c4_lastChecked_writers [] 1
      ⟨"example.com", "BASE", ["1.2.3.4"], true, some 200, false, 3, none⟩
      ⟨[], [], []⟩ ⟨1, "example.com", "BASE", [], true, none, false, 0, none⟩
      CrawlFate.timeout ProcessFate.timeout true 0).1 _ (by decide)

/-! ## Claim C5 — liveness is IP-resolution-driven -/

/-- Claim C5: in the validation merge of `_process_subdomain`, a domain is
recorded alive exactly when DNS resolution succeeded with a nonempty IP set
(an HTTP-probe or takeover failure never marks it dead), and a successfully
probed HTTP status is recorded regardless of the resolution outcome. -/
theorem c5_liveness_is_ip_resolution_driven (domain source : String)
    (pr : ProbeResults) (now : Nat) :
    ((_process_subdomain_record domain source pr now).isAlive = true ↔
        ∃ ips, pr.resolve = Except.ok ips ∧ ips ≠ []) ∧
      (∀ s b, pr.http = Except.ok (some s, b) →
        (_process_subdomain_record domain source pr now).httpStatus = some s) := by
  constructor
  · cases hres : pr.resolve with
    | error u => simp [_process_subdomain_record, hres]
    | ok l =>
      simp only [_process_subdomain_record, hres]
      cases l <;> simp
  · intro s b hh
    simp [_process_subdomain_record, hh]

/-- Witness for C5: a resolving host with a failed HTTP probe is alive, and a
probed status is recorded for a host whose resolution raised. -/
theorem c5_liveness_is_ip_resolution_driven_witness :
    (_process_subdomain_record "example.com" "BASE"
          ⟨Except.ok ["1.2.3.4"], Except.error (), Except.ok false⟩ 0).isAlive = true ∧
      (_process_subdomain_record "www.example.com" "PASSIVE"
          ⟨Except.error (), Except.ok (some 200, none), Except.ok false⟩ 0).httpStatus =
        some 200 :=
  ⟨(c5_liveness_is_ip_resolution_driven "example.com" "BASE"
        ⟨Except.ok ["1.2.3.4"], Except.error (), Except.ok false⟩ 0).1.mpr
      ⟨["1.2.3.4"], rfl, by decide⟩,
    (c5_liveness_is_ip_resolution_driven "www.example.com" "PASSIVE"
        ⟨Except.error (), Except.ok (some 200, none), Except.ok false⟩ 0).2 200 none rfl⟩

/-! ## Claim C9 — report statistics -/

/-- Claim C9 counterexample: a run that ends with an error reports the
endpoint count as 0 even though the durable store holds one in-scope
endpoint, and `live_subdomains` is the in-memory counter (5 here), not a
storage query. -/
theorem c9_counterexample :
    _count_endpoints "example.com"
        ⟨[⟨1, "example.com", "BASE", ["1.2.3.4"], true, some 200, false, 0, some 9⟩],
          [⟨1, 1⟩], [], []⟩ = 1 ∧
      (_generate_scan_report ⟨"example.com", 0, none, 3, 5⟩
          ⟨[⟨1, "example.com", "BASE", ["1.2.3.4"], true, some 200, false, 0, some 9⟩],
            [⟨1, 1⟩], [], []⟩ 10 (some "Scan timed out")).endpointsDiscovered = 0 ∧
      (_generate_scan_report ⟨"example.com", 0, none, 3, 5⟩
          ⟨[⟨1, "example.com", "BASE", ["1.2.3.4"], true, some 200, false, 0, some 9⟩],
            [⟨1, 1⟩], [], []⟩ 10 (some "Scan timed out")).liveSubdomains = 5 := by
  refine ⟨?_, rfl, rfl⟩
  decide

/-- Claim C9 (amended): only reports of error-free runs populate the
endpoint/javascript/vulnerability statistics from the durable store; a run
ending in error reports those three counts as 0, and the live-targets
statistic always comes from the in-memory `crawled_subdomains` counter. -/
theorem c9_report_statistics (st : ScanState) (db : ReportDB) (now : Nat) (e : String) :
    ((_generate_scan_report st db now none).endpointsDiscovered =
          _count_endpoints st.target db ∧
        (_generate_scan_report st db now none).jsFilesFound =
          _count_js_files st.target db ∧
        (_generate_scan_report st db now none).vulnerabilitiesFound =
          _count_vulnerabilities st.target db) ∧
      ((_generate_scan_report st db now (some e)).endpointsDiscovered = 0 ∧
        (_generate_scan_report st db now (some e)).jsFilesFound = 0 ∧
        (_generate_scan_report st db now (some e)).vulnerabilitiesFound = 0) ∧
      (∀ err : Option String,
        (_generate_scan_report st db now err).liveSubdomains = st.crawledSubdomains) :=
  ⟨⟨rfl, rfl, rfl⟩, ⟨rfl, rfl, rfl⟩, fun _ => rfl⟩

/-! ## Claim C8 — idempotent upsert -/

lemma countDomain_nil (d : String) : countDomain [] d = 0 := rfl

lemma countDomain_cons (x : SubdomainRec) (l : List SubdomainRec) (d : String) :
    countDomain (x :: l) d = (if x.domain = d then 1 else 0) + countDomain l d := by
  by_cases h : x.domain = d
  · simp [countDomain, List.filter_cons, h, Nat.add_comm]
  · simp [countDomain, List.filter_cons, h]

lemma countDomain_save (db : List SubdomainRec) (newId : Nat) (r : ValidationRecord)
    (d : String) :
    countDomain (SubdomainRepository_save db newId r) d =
      if d = r.domain then (if countDomain db d = 0 then 1 else countDomain db d)
      else countDomain db d := by
  induction db with
  | nil =>
    show countDomain [newSubdomainRow newId r] d = _
    rw [countDomain_cons, countDomain_nil]
    by_cases hd : d = r.domain
    · simp [newSubdomainRow, hd]
    · have hd' : ¬(newSubdomainRow newId r).domain = d := fun h => hd (Eq.symm h)
      rw [if_neg hd', if_neg hd]
  | cons rec0 rest ih =>
    by_cases hdom : rec0.domain = r.domain
    · rw [SubdomainRepository_save, if_pos hdom]
      rw [countDomain_cons, countDomain_cons]
      have hau : (applyUpdate rec0 r).domain = r.domain := rfl
      rw [hau, hdom]
      by_cases hd : d = r.domain
      · subst hd
        rw [if_pos rfl, if_pos rfl]
        rw [if_neg (by omega)]
      · rw [if_neg hd]
    · rw [SubdomainRepository_save, if_neg hdom]
      rw [countDomain_cons, countDomain_cons, ih]
      by_cases h0 : rec0.domain = d
      · by_cases hd : d = r.domain
        · exact absurd (h0.trans hd) hdom
        · rw [if_pos h0, if_neg hd, if_neg hd]
      · by_cases hd : d = r.domain
        · subst hd
          rw [if_neg h0]
          simp only [Nat.zero_add]
        · rw [if_neg h0]
          simp only [Nat.zero_add]

lemma save_length_of_mem (db : List SubdomainRec) (newId : Nat) (r : ValidationRecord)
    (hex : ∃ rec ∈ db, rec.domain = r.domain) :
    (SubdomainRepository_save db newId r).length = db.length := by
  induction db with
  | nil => simp at hex
  | cons rec0 rest ih =>
    by_cases hdom : rec0.domain = r.domain
    · rw [SubdomainRepository_save, if_pos hdom]
      simp
    · rw [SubdomainRepository_save, if_neg hdom]
      rcases hex with ⟨rec, hrec, hdomrec⟩
      rcases List.mem_cons.mp hrec with h | h
      · exact absurd (h ▸ hdomrec) hdom
      · simp [ih ⟨rec, h, hdomrec⟩]

/-- Claim C8: `SubdomainRepository.save` never duplicates a domain — if the
store holds at most one row for a domain, it still does after any save, and
a save whose domain is already present updates in place (row count
unchanged). Two discoveries of the same seed therefore share one row. -/
theorem c8_upsert_never_duplicates (db : List SubdomainRec) (newId : Nat)
    (r : ValidationRecord) (d : String) (hdup : countDomain db d ≤ 1) :
    countDomain (SubdomainRepository_save db newId r) d ≤ 1 ∧
      ((∃ rec ∈ db, rec.domain = r.domain) →
        (SubdomainRepository_save db newId r).length = db.length) := by
  constructor
  · rw [countDomain_save]
    by_cases hd : d = r.domain
    · rw [if_pos hd]
      by_cases hz : countDomain db d = 0
      · rw [if_pos hz]
      · rw [if_neg hz]
        exact hdup
    · rw [if_neg hd]
      exact hdup
  · exact save_length_of_mem db newId r

/-- Witness for C8: re-saving `example.com` into a store that already holds
it keeps a single row. -/
theorem c8_upsert_never_duplicates_witness :
    countDomain
        (SubdomainRepository_save
          [⟨1, "example.com", "BASE", [], true, none, false, 0, some 4⟩] 3
          ⟨"example.com", "BASE", ["1.2.3.4"], true, some 200, false, 8, none⟩)
        "example.com" ≤ 1 ∧
      ((∃ rec ∈ [(⟨1, "example.com", "BASE", [], true, none, false, 0, some 4⟩ : SubdomainRec)],
          rec.domain =
            (⟨"example.com", "BASE", ["1.2.3.4"], true, some 200, false, 8, none⟩ :
              ValidationRecord).domain) →
        (SubdomainRepository_save
            [⟨1, "example.com", "BASE", [], true, none, false, 0, some 4⟩] 3
            ⟨"example.com", "BASE", ["1.2.3.4"], true, some 200, false, 8, none⟩).length =
          [(⟨1, "example.com", "BASE", [], true, none, false, 0, some 4⟩ : SubdomainRec)].length) :=
  c8_upsert_never_duplicates
    [⟨1, "example.com", "BASE", [], true, none, false, 0, some 4⟩] 3
    ⟨"example.com", "BASE", ["1.2.3.4"], true, some 200, false, 8, none⟩
    "example.com" (by decide)

/-! ## Claim C7 — persistence of crawled resources -/

lemma countKey_dedupAux (l : List KatanaResult) :
    ∀ (seen : List (String × String)) (u m : String),
      countKey (dedupAux seen l) u m =
        if (u, m) ∈ seen then 0 else if countKey l u m = 0 then 0 else 1 := by
  induction l with
  | nil =>
    intro seen u m
    simp only [dedupAux, countKey, List.countP_nil]
    split <;> rfl
  | cons r rest ih =>
    intro seen u m
    by_cases hmem : (r.url, r.method) ∈ seen
    · rw [dedupAux, if_pos hmem, ih seen u m]
      by_cases hu : (u, m) ∈ seen
      · rw [if_pos hu, if_pos hu]
      · have hne : ((r.url == u && r.method == m) : Bool) = false := by
          by_cases h1 : r.url = u
          · by_cases h2 : r.method = m
            · exact absurd (h1 ▸ h2 ▸ hmem) hu
            · simp [h1, h2]
          · simp [h1]
        have hcnt : countKey (r :: rest) u m = countKey rest u m := by
          simp [countKey, List.countP_cons, hne]
        rw [if_neg hu, if_neg hu, hcnt]
    · rw [dedupAux, if_neg hmem]
      by_cases hk : r.url = u ∧ r.method = m
      · have hb : ((r.url == u && r.method == m) : Bool) = true := by
          simp [hk.1, hk.2]
        have htail : countKey (dedupAux ((r.url, r.method) :: seen) rest) u m = 0 := by
          rw [ih ((r.url, r.method) :: seen) u m,
            if_pos (by rw [hk.1, hk.2]; exact List.mem_cons_self _ _)]
        have hhead : countKey (r :: dedupAux ((r.url, r.method) :: seen) rest) u m = 1 := by
          simp only [countKey, List.countP_cons] at htail ⊢
          simp [htail, hb]
        rw [hhead]
        have hu : (u, m) ∉ seen := fun h => hmem (by rw [← hk.1, ← hk.2] at h; exact h)
        have hnz : ¬(countKey (r :: rest) u m = 0) := by
          simp [countKey, List.countP_cons, hb]
        rw [if_neg hu, if_neg hnz]
      · have hb : ((r.url == u && r.method == m) : Bool) = false := by
          by_cases h1 : r.url = u
          · by_cases h2 : r.method = m
            · exact absurd ⟨h1, h2⟩ hk
            · simp [h1, h2]
          · simp [h1]
        have hstep : countKey (r :: dedupAux ((r.url, r.method) :: seen) rest) u m =
            countKey (dedupAux ((r.url, r.method) :: seen) rest) u m := by
          simp [countKey, List.countP_cons, hb]
        have hcnt : countKey (r :: rest) u m = countKey rest u m := by
          simp [countKey, List.countP_cons, hb]
        rw [hstep, ih ((r.url, r.method) :: seen) u m, hcnt]
        have hiff : ((u, m) ∈ (r.url, r.method) :: seen) ↔ ((u, m) ∈ seen) := by
          rw [List.mem_cons]
          constructor
          · rintro (h | h)
            · rw [Prod.mk.injEq] at h
              exact absurd ⟨h.1.symm, h.2.symm⟩ hk
            · exact h
          · exact Or.inr
        by_cases hu : (u, m) ∈ seen
        · rw [if_pos (hiff.mpr hu), if_pos hu]
        · rw [if_neg (fun h => hu (hiff.mp h)), if_neg hu]

/-- Every `(url, method)` key present in the input appears exactly once after
`_deduplicate_results`, and an absent key stays absent. -/
lemma countKey_deduplicate (l : List KatanaResult) (u m : String) :
    countKey (_deduplicate_results l) u m =
      if countKey l u m = 0 then 0 else 1 := by
  rw [_deduplicate_results, countKey_dedupAux l [] u m, if_neg (List.not_mem_nil _)]

/-- `_parse_result` raises `TypeError` on every call: the required
`timestamp`, `tag` and `attribute` dataclass fields are not among the passed
keywords. -/
lemma parse_result_always_raises (raw : RawResult) (source : String) :
    _parse_result raw source = Except.error () := by
  rw [_parse_result, if_neg (by decide)]

lemma parse_all_nonempty_raises (source : String) (raw : RawResult)
    (rest : List RawResult) :
    parse_all source (raw :: rest) = Except.error () := by
  simp [parse_all, parse_result_always_raises]

lemma collect_parse_all (source : String) (lines : List RawResult) :
    collectTask (parse_all source lines) = [] := by
  cases lines with
  | nil => rfl
  | cons raw rest =>
    rw [parse_all_nonempty_raises]
    rfl

/-- Every sub-crawl with output raises, so `crawl_all` can only ever return
the empty record list. -/
lemma crawl_all_returns_nothing (aborted : Bool) (ep js fm : List RawResult) :
    KatanaCrawler_crawl_all aborted ep js fm = [] := by
  cases aborted with
  | true => rfl
  | false =>
    simp [KatanaCrawler_crawl_all, KatanaCrawler_crawl_endpoints,
      KatanaCrawler_crawl_js, KatanaCrawler_crawl_forms, collect_parse_all,
      _deduplicate_results, dedupAux]

/-- Claim C7 evidence: the code persists zero Resource records for the
spec's literal scenario, not one.  `_parse_result` omits the required
`timestamp`/`tag`/`attribute` fields of `core.models.KatanaResult`, so it
raises `TypeError` on every output line and `crawl_all` — here with both the
endpoint and the javascript crawl reporting
`("https://www.example.com/a", "GET")` — returns no records at all; and even
handed such a record directly, `_create_endpoint_record` raises `TypeError`
(`path` and `source` are not `Endpoint` columns), so `_process_results`
rolls back and persists nothing.  `_deduplicate_results` itself does
collapse `(url, method)` duplicates (see `countKey_deduplicate`), but no
record ever reaches it. -/
theorem c7_zero_resources_persisted :
    (_parse_result ⟨"https://www.example.com/a", "GET", some 200, none, none⟩
        "crawler" = Except.error ()) ∧
      (KatanaCrawler_crawl_all false
          [⟨"https://www.example.com/a", "GET", some 200, none, none⟩]
          [⟨"https://www.example.com/a", "GET", some 200, none, none⟩] [] = []) ∧
      (_create_endpoint_record 1 0
          ⟨"", "https://www.example.com/a", "GET", "a", "href", "crawler",
            some 200, none, none, []⟩ = Except.error ()) ∧
      (_process_results ⟨[], [], []⟩ 1
          [⟨"", "https://www.example.com/a", "GET", "a", "href", "crawler",
            some 200, none, none, []⟩] 0 true = none) :=
  ⟨rfl, by decide, rfl, by decide⟩

/-! ## Claim C6 — failure isolation in the crawl batch -/

/-- Claim C6 evidence: the batch machinery isolates the raising target, but
the claimed persistence for the other targets cannot happen.  In a
three-target batch where target 2's crawl worker raises and targets 1 and 3
crawl successfully, each with one discovered endpoint record, the claim
expects those two targets' records persisted and exactly one reported
failure; instead `_create_endpoint_record` raises `TypeError` on every
record, so all three targets end in the caught-error path: the store is
returned unchanged (no records, no watermarks) and three failures are
reported, not one. -/
theorem c6_no_records_survive_for_other_targets :
    (crawl_specific_targets
        ⟨[⟨1, "a.example.com", "PASSIVE", ["1.2.3.4"], true, none, false, 0, none⟩,
          ⟨2, "b.example.com", "PASSIVE", ["1.2.3.5"], true, none, false, 0, none⟩,
          ⟨3, "c.example.com", "PASSIVE", ["1.2.3.6"], true, none, false, 0, none⟩],
          [], []⟩ 9
        [⟨⟨1, "a.example.com", "PASSIVE", ["1.2.3.4"], true, none, false, 0, none⟩,
            CrawlFate.ok [⟨"", "https://a.example.com/x", "GET", "a", "href", "crawler",
              some 200, none, none, []⟩],
            ProcessFate.run true, true⟩,
          ⟨⟨2, "b.example.com", "PASSIVE", ["1.2.3.5"], true, none, false, 0, none⟩,
            CrawlFate.raised, ProcessFate.run true, true⟩,
          ⟨⟨3, "c.example.com", "PASSIVE", ["1.2.3.6"], true, none, false, 0, none⟩,
            CrawlFate.ok [⟨"", "https://c.example.com/y", "GET", "a", "href", "crawler",
              some 200, none, none, []⟩],
            ProcessFate.run true, true⟩] =
      (⟨[⟨1, "a.example.com", "PASSIVE", ["1.2.3.4"], true, none, false, 0, none⟩,
          ⟨2, "b.example.com", "PASSIVE", ["1.2.3.5"], true, none, false, 0, none⟩,
          ⟨3, "c.example.com", "PASSIVE", ["1.2.3.6"], true, none, false, 0, none⟩],
          [], []⟩,
        [TargetOutcome.errorCaught, TargetOutcome.errorCaught,
          TargetOutcome.errorCaught])) ∧
      ((crawl_specific_targets
        ⟨[⟨1, "a.example.com", "PASSIVE", ["1.2.3.4"], true, none, false, 0, none⟩,
          ⟨2, "b.example.com", "PASSIVE", ["1.2.3.5"], true, none, false, 0, none⟩,
          ⟨3, "c.example.com", "PASSIVE", ["1.2.3.6"], true, none, false, 0, none⟩],
          [], []⟩ 9
        [⟨⟨1, "a.example.com", "PASSIVE", ["1.2.3.4"], true, none, false, 0, none⟩,
            CrawlFate.ok [⟨"", "https://a.example.com/x", "GET", "a", "href", "crawler",
              some 200, none, none, []⟩],
            ProcessFate.run true, true⟩,
          ⟨⟨2, "b.example.com", "PASSIVE", ["1.2.3.5"], true, none, false, 0, none⟩,
            CrawlFate.raised, ProcessFate.run true, true⟩,
          ⟨⟨3, "c.example.com", "PASSIVE", ["1.2.3.6"], true, none, false, 0, none⟩,
            CrawlFate.ok [⟨"", "https://c.example.com/y", "GET", "a", "href", "crawler",
              some 200, none, none, []⟩],
            ProcessFate.run true, true⟩]).2.count TargetOutcome.errorCaught = 3) := by
  constructor
  · decide
  · decide

end Peekaboo
